import Mathlib

/-!
Shallow embedding of the purchase-order OCR extraction core
(`ocr_service.py` and `ocr_extractors.py`).

Strings are modelled as `List Char`.  Python float arithmetic on the
reachable values (score ratios with denominators 33/36/35, completeness
ratios with denominators 4 and 7) is exact, so floats are modelled as `ℚ`.
Python regular-expression searches are modelled by a small backtracking
engine over an abstract syntax covering exactly the constructs the
source patterns use (literals, character classes, `?`, alternation,
greedy and lazy repetition of single-character items, `+`, the `$`
anchor and numbered capture groups), with the `re.IGNORECASE`,
`re.MULTILINE` and `re.DOTALL` flags made explicit per call site.
-/

abbrev Str := List Char

def lstr (s : String) : Str := s.data

/-- Whitespace as matched by Python `\s` and stripped by `str.strip()`. -/
def pySpace (c : Char) : Bool :=
  c = ' ' || c = '\t' || c = '\n' || c = '\r' || c = '\x0b' || c = '\x0c'

/-- Python `str.strip()`. -/
def pyStrip (s : Str) : Str :=
  ((s.dropWhile pySpace).reverse.dropWhile pySpace).reverse

def colonSpace (c : Char) : Bool := c = ':' || pySpace c

/-- Effect of `re.sub(r'^[:\s]+|[:\s]+$', '', value)`: trim leading and
trailing colons and whitespace. -/
def trimColonSpace (s : Str) : Str :=
  ((s.dropWhile colonSpace).reverse.dropWhile colonSpace).reverse

/-- List-of-characters version of `String.startsWith`. -/
def isPre : Str → Str → Bool
  | [], _ => true
  | _ :: _, [] => false
  | a :: as, b :: bs => a = b && isPre as bs

/-- Python substring containment `needle in hay`. -/
def substrIn (n : Str) : Str → Bool
  | [] => isPre n []
  | c :: rest => isPre n (c :: rest) || substrIn n rest

/-- Python `hay.replace(needle, "")` for a non-empty needle. -/
def removeSub (n : Str) (h : Str) : Str :=
  match n, h with
  | [], h => h
  | _ :: _, [] => []
  | n1 :: ns, c :: rest =>
      if isPre (n1 :: ns) (c :: rest) then removeSub (n1 :: ns) (rest.drop ns.length)
      else c :: removeSub (n1 :: ns) rest
termination_by h.length
decreasing_by
  · simp only [List.length_cons, List.length_drop]; omega
  · simp only [List.length_cons]; omega

/-- Atoms of a regex character class. -/
inductive CAtom where
  | ch (c : Char)
  | rng (lo hi : Char)
  | digit
  | space
  | wordc
deriving DecidableEq

/-- A (possibly negated) character class `[...]` / `[^...]`. -/
structure CClass where
  neg : Bool
  atoms : List CAtom
deriving DecidableEq

/-- Python `re` flags relevant to this code base. -/
structure RFlags where
  ic : Bool
  ml : Bool
  da : Bool
deriving DecidableEq

def atomHit (a : CAtom) (c : Char) : Bool :=
  match a with
  | .ch d => c = d
  | .rng lo hi => lo.toNat ≤ c.toNat && c.toNat ≤ hi.toNat
  | .digit => c.isDigit
  | .space => pySpace c
  | .wordc => c.isAlpha || c.isDigit || c = '_'

def classHit (fl : RFlags) (cl : CClass) (c : Char) : Bool :=
  let hit := fun d => cl.atoms.any (fun a => atomHit a d)
  let base := if fl.ic then hit c || hit c.toLower || hit c.toUpper else hit c
  if cl.neg then !base else base

/-- A single-character item: a class or the dot. -/
inductive CU where
  | cl (c : CClass)
  | anyc
deriving DecidableEq

def cuHit (fl : RFlags) (u : CU) (c : Char) : Bool :=
  match u with
  | .cl cls => classHit fl cls c
  | .anyc => if fl.da then true else c ≠ '\n'

/-- Regex abstract syntax covering the constructs used by the source. -/
inductive Regex where
  | eps
  | one (u : CU)
  | cat (a b : Regex)
  | alt (a b : Regex)
  | opt (a : Regex)
  | star (u : CU)
  | starL (u : CU)
  | plus (u : CU)
  | dollar
  | grp (n : Nat) (a : Regex)
deriving DecidableEq

abbrev Caps := List (Nat × Str)

/-- Suffixes reachable by greedy `*` over `u`, longest match first. -/
def starSufG (fl : RFlags) (u : CU) : Str → List Str
  | [] => [[]]
  | c :: rest =>
      if cuHit fl u c then starSufG fl u rest ++ [c :: rest] else [c :: rest]

/-- Suffixes reachable by lazy `*?` over `u`, shortest match first. -/
def starSufL (fl : RFlags) (u : CU) : Str → List Str
  | [] => [[]]
  | c :: rest =>
      if cuHit fl u c then (c :: rest) :: starSufL fl u rest else [c :: rest]

/-- All ways to match `r` at the start of `s`, in backtracking priority
order; each result is the remaining suffix with the captures made. -/
def mrun (fl : RFlags) : Regex → Str → Caps → List (Str × Caps)
  | .eps, s, k => [(s, k)]
  | .one _, [], _ => []
  | .one u, c :: rest, k => if cuHit fl u c then [(rest, k)] else []
  | .cat a b, s, k => (mrun fl a s k).flatMap (fun sk => mrun fl b sk.1 sk.2)
  | .alt a b, s, k => mrun fl a s k ++ mrun fl b s k
  | .opt a, s, k => mrun fl a s k ++ [(s, k)]
  | .star u, s, k => (starSufG fl u s).map (fun s2 => (s2, k))
  | .starL u, s, k => (starSufL fl u s).map (fun s2 => (s2, k))
  | .plus _, [], _ => []
  | .plus u, c :: rest, k =>
      if cuHit fl u c then (starSufG fl u rest).map (fun s2 => (s2, k)) else []
  | .dollar, s, k =>
      if (if fl.ml then s = [] || s.head? = some '\n' else s = [] || s = ['\n'])
      then [(s, k)] else []
  | .grp n a, s, k =>
      (mrun fl a s k).map (fun sk => (sk.1, (n, s.take (s.length - sk.1.length)) :: sk.2))

/-- Highest-priority match of `r` anchored at the start of `s`. -/
def matchHere (fl : RFlags) (r : Regex) (s : Str) : Option (Str × Caps) :=
  (mrun fl r s []).head?

/-- Python `re.search`: leftmost match; returns the matched length, the
suffix after the match, and the captures. -/
def reSearch (fl : RFlags) (r : Regex) : Str → Option (Nat × Str × Caps)
  | [] => (matchHere fl r []).map (fun sk => (0, sk.1, sk.2))
  | c :: rest =>
      match matchHere fl r (c :: rest) with
      | some sk => some ((c :: rest).length - sk.1.length, sk.1, sk.2)
      | none => reSearch fl r rest

def reHas (fl : RFlags) (r : Regex) (s : Str) : Bool := (reSearch fl r s).isSome

/-- Value of capture group `n`, when it participated in the match. -/
def grpGet (k : Caps) (n : Nat) : Option Str :=
  (k.find? (fun p => p.1 = n)).map (·.2)

def reFindallAux (fl : RFlags) (r : Regex) : Nat → Str → List Caps
  | 0, _ => []
  | fuel + 1, s =>
      match reSearch fl r s with
      | none => []
      | some (len, rest, k) =>
          if len = 0 then
            match rest with
            | [] => [k]
            | _ :: rs => k :: reFindallAux fl r fuel rs
          else k :: reFindallAux fl r fuel rest

/-- Python `re.findall` (capture tuples of the non-overlapping matches). -/
def reFindall (fl : RFlags) (r : Regex) (s : Str) : List Caps :=
  reFindallAux fl r (s.length + 1) s

/-! Pattern-building helpers.  Every pattern below is a direct
transcription of a raw-string regex in `ocr_extractors.py`. -/

def apos : Char := '\x27'

def rc (c : Char) : Regex := .one (.cl ⟨false, [.ch c]⟩)

def rs (s : String) : Regex := s.data.foldr (fun c acc => .cat (rc c) acc) .eps

def rcat : List Regex → Regex
  | [] => .eps
  | [r] => r
  | r :: rest => .cat r (rcat rest)

def ralts : List Regex → Regex
  | [] => .eps
  | [r] => r
  | r :: rest => .alt r (ralts rest)

def clsDigit : CClass := ⟨false, [.digit]⟩
def clsSpace : CClass := ⟨false, [.space]⟩
def numCls : CClass := ⟨false, [.digit, .ch ',', .ch '.']⟩
def numComma : CClass := ⟨false, [.digit, .ch ',']⟩
def numDot : CClass := ⟨false, [.digit, .ch '.']⟩
def alnumCls : CClass := ⟨false, [.rng 'A' 'Z', .rng 'a' 'z', .rng '0' '9']⟩
def upperCls : CClass := ⟨false, [.rng 'A' 'Z']⟩
def alphaCls : CClass := ⟨false, [.rng 'A' 'Z', .rng 'a' 'z']⟩
def alnumSpCls : CClass := ⟨false, [.rng 'A' 'Z', .rng 'a' 'z', .rng '0' '9', .space]⟩
def alphaSpCls : CClass := ⟨false, [.rng 'A' 'Z', .rng 'a' 'z', .space]⟩
def notNl : CClass := ⟨true, [.ch '\n']⟩
def notRp : CClass := ⟨true, [.ch ')']⟩
def dashDigCls : CClass := ⟨false, [.ch '-', .digit]⟩
def wordCls : CClass := ⟨false, [.wordc]⟩
def dollarCls : CClass := ⟨false, [.ch '$']⟩
def nlCls : CClass := ⟨false, [.ch '\n']⟩

def digits1 : Regex := .plus (.cl clsDigit)
def sp0 : Regex := .star (.cl clsSpace)
def sp1 : Regex := .plus (.cl clsSpace)
def lazyAny : Regex := .starL .anyc
def nlOrEnd : Regex := .alt (rc '\n') .dollar

/-- Flag set of `re.search(p, t, re.IGNORECASE)` (format identification). -/
def icFl : RFlags := ⟨true, false, false⟩
/-- Flag set of `re.search(p, t, re.IGNORECASE | re.MULTILINE)`
(`extract_field_by_regex`). -/
def imFl : RFlags := ⟨true, true, false⟩
/-- Flag set of a plain `re.search` / `re.findall`. -/
def noFl : RFlags := ⟨false, false, false⟩
/-- Flag set of `re.findall(p, t, re.DOTALL)`. -/
def daFl : RFlags := ⟨false, false, true⟩

/-! Signature patterns of `identify_po_format`. -/

def f1sig1 : Regex := rcat [rc '(', rs "Buyer", .alt (rc apos) (rc apos), rs "s Info", rc ')']
def f1sig2 : Regex := rs "ABC Company"
def f1sig3 : Regex := rcat [rs "Purchase Order", .opt (rc ':'), sp0, digits1]
def f1sig4 : Regex := rs "Ship to:"
def f1sig5 : Regex := rcat [rs "Unit Price", .opt (rc ':'), sp0, rc '$']
def f1sig6 : Regex := rs "EXT Price:"
def f1sig7 : Regex := rs "Inco Terms:"
def f1sig8 : Regex := rs "Del Date:"

def f2sig1 : Regex := rcat [rs "Purchase Order", sp0, .dollar]
def f2sig2 : Regex := rs "Supplier:"
def f2sig3 : Regex := rcat [rs "Purchase Order no", .opt (rc ':'), sp0, digits1]
def f2sig4 : Regex := rs "Payment Terms:"
def f2sig5 : Regex := rs "Incoterms:"
def f2sig6 : Regex := rs "Discharge Port:"
def f2sig7 : Regex := rs "Buyer:"
def f2sig8 : Regex := rs "Commodity"
def f2sig9 : Regex := rs "Grand Total"

def f3sig1 : Regex :=
  rcat [.alt (rs "///") (rs "///"), rs "ORDER CONFIMATION", .alt (rs "///") (rs "///")]
def f3sig2 : Regex := rcat [rs "Contract Party", sp0, rc ':']
def f3sig3 : Regex := rs "Order No."
def f3sig4 : Regex := rcat [rs "Grade ", .one (.cl upperCls)]
def f3sig5 : Regex := rcat [rs "Qt", rc apos, rs "y (mt)"]
def f3sig6 : Regex := rs "PORT OF DISCHARGE"
def f3sig7 : Regex := rs "Payment term"
def f3sig8 : Regex := rs "TIME OF SHIPMENT"
def f3sig9 : Regex := rs "PORT OF LOADING"

/-- Weighted signature table of `identify_po_format` (insertion order
format1, format2, format3, as in the Python dict). -/
def fmt1feats : List (Regex × Nat) :=
  [(f1sig1, 10), (f1sig2, 5), (f1sig3, 5), (f1sig4, 3), (f1sig5, 3),
   (f1sig6, 3), (f1sig7, 2), (f1sig8, 2)]

def fmt2feats : List (Regex × Nat) :=
  [(f2sig1, 10), (f2sig2, 5), (f2sig3, 5), (f2sig4, 3), (f2sig5, 3),
   (f2sig6, 3), (f2sig7, 3), (f2sig8, 2), (f2sig9, 2)]

def fmt3feats : List (Regex × Nat) :=
  [(f3sig1, 10), (f3sig2, 5), (f3sig3, 5), (f3sig4, 3), (f3sig5, 3),
   (f3sig6, 3), (f3sig7, 2), (f3sig8, 2), (f3sig9, 2)]

def format_features : List (Str × List (Regex × Nat)) :=
  [(lstr "format1", fmt1feats), (lstr "format2", fmt2feats), (lstr "format3", fmt3feats)]

/-- Matched-weight sum of one format's feature list on a text. -/
def scoreOf (feats : List (Regex × Nat)) (t : Str) : Nat :=
  feats.foldl (fun sc pw => if reHas icFl pw.1 t then sc + pw.2 else sc) 0

/-- Python `max(xs, key=...)` over a non-empty association list:
the first entry with the maximal score wins. -/
def pymax : Str × Nat → List (Str × Nat) → Str × Nat
  | acc, [] => acc
  | acc, y :: ys => pymax (if y.2 > acc.2 then y else acc) ys

/-- Total configured weight of the named format
(`sum(weight for _, weight in format_features[best])`). -/
def totalWeightOf (name : Str) : Nat :=
  match format_features.find? (fun fw => fw.1 = name) with
  | some fw => (fw.2.map Prod.snd).sum
  | none => 0

/-- Model of `identify_po_format`. -/
def identify_po_format (t : Str) : Str × ℚ :=
  let format_scores := format_features.map (fun fw => (fw.1, scoreOf fw.2 t))
  if format_scores.all (fun ns => ns.2 = 0) then (lstr "unknown", 0)
  else
    match format_scores with
    | [] => (lstr "unknown", 0)
    | x :: rest =>
        let best := pymax x rest
        let total := totalWeightOf best.1
        (best.1, if total > 0 then (best.2 : ℚ) / (total : ℚ) else 0)

/-! Data model: `LineItem` and `ExtractedOrder` (the dicts built by the
extractors, with the key set fixed by the source). -/

structure LineItem where
  name : Str
  quantity : Str
  unitPrice : Str
  amount : Str
deriving DecidableEq

structure ExtractedOrder where
  customer : Str
  poNumber : Str
  currency : Str
  products : List LineItem
  totalAmount : Str
  paymentTerms : Str
  terms : Str
  destination : Str
deriving DecidableEq

/-- Model of `extract_field_by_regex` (default value `""`): first pattern
whose match has a non-empty stripped group 1 wins. -/
def extract_field_by_regex (t : Str) (pats : List Regex) : Str :=
  match pats with
  | [] => []
  | p :: rest =>
      match reSearch imFl p t with
      | some res =>
          let v := pyStrip ((grpGet res.2.2 1).getD [])
          if v ≠ [] then trimColonSpace v else extract_field_by_regex t rest
      | none => extract_field_by_regex t rest

/-- Shared currency pattern `(USD|EUR|JPY|CNY)`, searched with no flags. -/
def curRe : Regex := .grp 1 (ralts [rs "USD", rs "EUR", rs "JPY", rs "CNY"])

def currencyOf (t : Str) : Str :=
  match reSearch noFl curRe t with
  | some res => (grpGet res.2.2 1).getD []
  | none => []

/-! Field patterns of `extract_format1_data`. -/

def f1custPats : List Regex :=
  [ rcat [rs "ABC Company", sp0, .grp 1 lazyAny, nlOrEnd],
    rcat [rc '(', rs "Buyer", .alt (rc apos) (rc apos), rs "s Info)", lazyAny,
          .grp 1 (rcat [.plus (.cl alnumSpCls), rs "Company"])] ]

def f1poPats : List Regex :=
  [ rcat [rs "Purchase Order", .opt (ralts [rc ':', rs "Order", rs "Number"]),
          .opt (rc ':'), sp0, .grp 1 digits1],
    rcat [.alt (rs "PO") (rs "Order"), .opt (rcat [sp1, rs "No"]), .opt (rc '.'),
          .opt (rc ':'), sp0, .grp 1 digits1] ]

def f1namePats : List Regex :=
  [ rcat [rs "Item:", sp0, .grp 1 lazyAny, nlOrEnd],
    rcat [rs "Product", .opt (rc ':'), sp0, .grp 1 lazyAny, .alt (rc '\n') (rs "Quantity")] ]

def f1qtyPats : List Regex :=
  [ rcat [rs "Quantity:", sp0, .grp 1 (.plus (.cl numCls)), sp0,
          ralts [rs "KG", rs "kg", rs "MT", rs "mt"]],
    rcat [rs "Qty", .opt (rc ':'), sp0, .grp 1 (.plus (.cl numCls)), sp0,
          ralts [rs "KG", rs "kg", rs "MT", rs "mt"]] ]

def f1upPats : List Regex :=
  [ rcat [rs "Unit Price:", sp0, .opt (rc '$'), sp0, .grp 1 (.plus (.cl numCls))],
    rcat [rs "Unit Price:", lazyAny, rs "per", sp0, lazyAny, .opt (rc '$'), sp0,
          .grp 1 (.plus (.cl numCls))] ]

def f1amtPats : List Regex :=
  [ rcat [rs "EXT Price:", sp0, .grp 1 (.plus (.cl numCls))],
    rcat [rs "Amount:", sp0, .grp 1 (.plus (.cl numCls))] ]

def f1totPats : List Regex :=
  [ rcat [rs "TOTAL", sp0, .grp 1 (.plus (.cl numCls))],
    rcat [rs "Total", .opt (rc ':'), sp0, .grp 1 (.plus (.cl numCls))] ]

def f1payPats : List Regex :=
  [ rcat [rs "Terms:", sp0, .grp 1 lazyAny, nlOrEnd],
    rcat [rs "Payment term", .opt (rc 's'), .opt (rc ':'), sp0, .grp 1 lazyAny, nlOrEnd],
    rcat [rs "Net Due within", sp0, .grp 1 lazyAny, nlOrEnd] ]

def f1termsPats : List Regex :=
  [ rcat [rs "Inco Terms:", sp0, .grp 1 lazyAny, nlOrEnd],
    rcat [rs "Shipping Terms:", sp0, .grp 1 lazyAny, nlOrEnd],
    rcat [rs "Delivery Terms:", sp0, .grp 1 lazyAny, nlOrEnd] ]

def f1destPats : List Regex :=
  [ rcat [rs "Ship to:", sp0, .grp 1 lazyAny, nlOrEnd],
    rcat [rs "Destination:", sp0, .grp 1 lazyAny, nlOrEnd],
    rcat [rs "Delivery Address:", sp0, .grp 1 lazyAny, nlOrEnd] ]

/-- Model of `extract_format1_data`. -/
def extract_format1_data (t : Str) : ExtractedOrder :=
  let product_name := extract_field_by_regex t f1namePats
  let quantity := extract_field_by_regex t f1qtyPats
  let unit_price := extract_field_by_regex t f1upPats
  let amount := extract_field_by_regex t f1amtPats
  { customer := extract_field_by_regex t f1custPats
    poNumber := extract_field_by_regex t f1poPats
    currency := currencyOf t
    products :=
      if product_name ≠ [] then
        [⟨product_name, quantity, unit_price, amount⟩]
      else []
    totalAmount := extract_field_by_regex t f1totPats
    paymentTerms := extract_field_by_regex t f1payPats
    terms := extract_field_by_regex t f1termsPats
    destination := extract_field_by_regex t f1destPats }

/-! Field and row patterns of `extract_format2_data`. -/

def f2custPats : List Regex :=
  [ rcat [rs "Buyer:", sp0, .grp 1 lazyAny, nlOrEnd],
    rcat [ralts [rs "Buyer", rs "Customer", rs "Client"], rc ':', sp0, .grp 1 lazyAny, nlOrEnd] ]

def f2poPats : List Regex :=
  [ rcat [rs "Purchase Order no", .opt (rc ':'), sp0, .grp 1 digits1],
    rcat [rs "PO ", .alt (rs "number") (rcat [rs "no", .opt (rc '.')]), rc ':', sp0,
          .grp 1 digits1] ]

/-- Table-row pattern
`([A-Za-z0-9]+)\s+(Product [A-Za-z])\s+([\d,]+)\s*kg\s+US\$?([\d.]+)\s+US\$?([\d,.]+)`. -/
def f2rowRe : Regex :=
  rcat [.grp 1 (.plus (.cl alnumCls)), sp1,
        .grp 2 (rcat [rs "Product ", .one (.cl alphaCls)]), sp1,
        .grp 3 (.plus (.cl numComma)), sp0, rs "kg", sp1,
        rs "US", .opt (rc '$'), .grp 4 (.plus (.cl numDot)), sp1,
        rs "US", .opt (rc '$'), .grp 5 (.plus (.cl numCls))]

/-- Section pattern
`(Product [A-Za-z])[^\n]*\n[^\n]*?([\d,]+)\s*kg[^\n]*?(US\$[\d.]+)[^\n]*?(US\$[\d,.]+)`. -/
def f2secRe : Regex :=
  rcat [.grp 1 (rcat [rs "Product ", .one (.cl alphaCls)]), .star (.cl notNl), rc '\n',
        .starL (.cl notNl), .grp 2 (.plus (.cl numComma)), sp0, rs "kg",
        .starL (.cl notNl), .grp 3 (rcat [rs "US$", .plus (.cl numDot)]),
        .starL (.cl notNl), .grp 4 (rcat [rs "US$", .plus (.cl numCls)])]

/-- Fallback pattern `Product ([A-Z])`. -/
def f2nameRe : Regex := rcat [rs "Product ", .grp 1 (.one (.cl upperCls))]
/-- Fallback pattern `([\d,]+)\s*kg`. -/
def f2qtyRe : Regex := rcat [.grp 1 (.plus (.cl numComma)), sp0, rs "kg"]
/-- Fallback pattern `US\$([\d,.]+)`. -/
def f2priceRe : Regex := rcat [rs "US$", .grp 1 (.plus (.cl numCls))]

def f2totPats : List Regex :=
  [ rcat [rs "Grand Total", lazyAny, rs "US$", sp0, .grp 1 (.plus (.cl numComma))],
    rcat [rs "Total", .opt (rc ':'), sp0, rs "US$", sp0, .grp 1 (.plus (.cl numComma))],
    rcat [rs "Total Amount", .opt (rc ':'), sp0, rs "US$", sp0, .grp 1 (.plus (.cl numComma))] ]

def f2payPats : List Regex :=
  [ rcat [rs "Payment Terms:", sp0, .grp 1 lazyAny, nlOrEnd],
    rcat [rs "Payment", .opt (rc ':'), sp0, .grp 1 lazyAny, nlOrEnd] ]

def f2termsPats : List Regex :=
  [ rcat [rs "Incoterms:", sp0, .grp 1 lazyAny, nlOrEnd],
    rcat [.alt (rs "Shipping") (rs "Delivery"), rs " Terms:", sp0, .grp 1 lazyAny, nlOrEnd] ]

def f2destPats : List Regex :=
  [ rcat [rs "Discharge Port:", sp0, .grp 1 lazyAny, nlOrEnd],
    rcat [ralts [rs "Ship to", rs "Destination", rs "Delivery Address"], rc ':', sp0,
          .grp 1 lazyAny, nlOrEnd] ]

def g1 (k : Caps) : Str := (grpGet k 1).getD []
def g2 (k : Caps) : Str := (grpGet k 2).getD []
def g3 (k : Caps) : Str := (grpGet k 3).getD []
def g4 (k : Caps) : Str := (grpGet k 4).getD []
def g5 (k : Caps) : Str := (grpGet k 5).getD []

/-- Positional-pairing fallback loop of `extract_format2_data`
(`for i, name in enumerate(product_names): if i < len(quantities) and
i*2+1 < len(prices): append(...)`). -/
def fb2Items (qtys prices : List Str) : Nat → List Str → List LineItem
  | _, [] => []
  | i, n :: ns =>
      (if i < qtys.length ∧ i * 2 + 1 < prices.length then
        [⟨lstr "Product " ++ n,
          qtys.getD i [],
          if i * 2 < prices.length then prices.getD (i * 2) [] else [],
          if i * 2 + 1 < prices.length then prices.getD (i * 2 + 1) [] else []⟩]
      else []) ++ fb2Items qtys prices (i + 1) ns

/-- Model of `extract_format2_data`. -/
def extract_format2_data (t : Str) : ExtractedOrder :=
  let product_rows := reFindall noFl f2rowRe t
  let prods1 :=
    if product_rows ≠ [] then
      product_rows.map (fun k => (⟨pyStrip (g2 k), pyStrip (g3 k), pyStrip (g4 k), pyStrip (g5 k)⟩ : LineItem))
    else
      (reFindall noFl f2secRe t).map (fun k =>
        (⟨pyStrip (g1 k), pyStrip (g2 k),
          pyStrip (removeSub (lstr "US$") (g3 k)),
          pyStrip (removeSub (lstr "US$") (g4 k))⟩ : LineItem))
  let prods :=
    if prods1 = [] then
      fb2Items ((reFindall noFl f2qtyRe t).map g1) ((reFindall noFl f2priceRe t).map g1)
        0 ((reFindall noFl f2nameRe t).map g1)
    else prods1
  { customer := extract_field_by_regex t f2custPats
    poNumber := extract_field_by_regex t f2poPats
    currency := currencyOf t
    products := prods
    totalAmount := extract_field_by_regex t f2totPats
    paymentTerms := extract_field_by_regex t f2payPats
    terms := extract_field_by_regex t f2termsPats
    destination := extract_field_by_regex t f2destPats }

/-! Field patterns of `extract_format3_data`. -/

def f3custPats : List Regex :=
  [ rcat [rs "Contract Party", sp0, rc ':', sp0, .grp 1 lazyAny, nlOrEnd],
    rcat [rs "B/L CONSIGNEE", sp0, rc ':', sp0, .grp 1 lazyAny, nlOrEnd] ]

def f3poPats : List Regex :=
  [ rcat [rs "Order No.", sp0, .grp 1 lazyAny, ralts [rc '\n', rs "Grade", rs "Origin"]],
    rcat [rs "Buyers", .opt (.alt (rc apos) (rc apos)), sp1, rs "Order No.", sp0,
          .grp 1 lazyAny, ralts [rc '\n', rs "Grade", .dollar]] ]

def f3gradePats : List Regex :=
  [ rcat [rs "Grade", sp1, .grp 1 (.plus (.cl alnumCls))] ]

def f3qtyPats : List Regex :=
  [ rcat [rs "Qt", rc apos, rs "y", sp0, rs "(mt)", sp0, .grp 1 (.plus (.cl numDot))] ]

def f3upPats : List Regex :=
  [ rcat [rs "Unit Price", sp0, rc '(', .plus (.cl notRp), rc ')', sp0,
          .grp 1 (.plus (.cl numCls))] ]

def f3amtPats : List Regex :=
  [ rcat [rs "Total Amount", sp0, .grp 1 (.plus (.cl numCls))] ]

def f3totPats : List Regex :=
  [ rcat [rs "TOTAL", lazyAny, rs "USD", sp0, .grp 1 (.plus (.cl numCls))],
    rcat [rs "Total Amount", sp0, rs "USD", sp0, .grp 1 (.plus (.cl numCls))],
    rcat [rs "Total Amount", sp0, .grp 1 (.plus (.cl numCls))] ]

def f3payPats : List Regex :=
  [ rcat [rs "Payment term", sp0, .opt (rc '\n'), sp0, .grp 1 lazyAny, nlOrEnd],
    rcat [rs "Payment", sp0, rc ':', sp0, .grp 1 lazyAny, nlOrEnd] ]

def f3termsPats : List Regex :=
  [ rcat [rs "Term", sp0, .grp 1 lazyAny, nlOrEnd],
    rcat [rs "CIF", sp1, .grp 1 lazyAny, .alt (rc '\n') (rs "PORT")] ]

def f3destPats : List Regex :=
  [ rcat [rs "PORT OF DISCHARGE", sp0, .grp 1 lazyAny, nlOrEnd],
    rcat [rs "PORT OF", sp0, rs "DISCHARGE", sp0, .grp 1 lazyAny, .alt (rc '\n') (rs "Payment")] ]

/-- Model of `extract_format3_data`. -/
def extract_format3_data (t : Str) : ExtractedOrder :=
  let grade := extract_field_by_regex t f3gradePats
  let quantity := extract_field_by_regex t f3qtyPats
  let unit_price := extract_field_by_regex t f3upPats
  let amount := extract_field_by_regex t f3amtPats
  { customer := extract_field_by_regex t f3custPats
    poNumber := extract_field_by_regex t f3poPats
    currency := lstr "USD"
    products :=
      if grade ≠ [] then
        [⟨lstr "Grade " ++ grade, quantity, unit_price, amount⟩]
      else []
    totalAmount := extract_field_by_regex t f3totPats
    paymentTerms := extract_field_by_regex t f3payPats
    terms := extract_field_by_regex t f3termsPats
    destination := extract_field_by_regex t f3destPats }

/-! Patterns of `extract_generic_data`. -/

def gCustPats : List Regex :=
  [ rcat [ralts [rs "Customer", rs "Client", rs "Buyer", rs "Company", rs "Purchaser"],
          rc ':', sp0, .grp 1 lazyAny, nlOrEnd],
    rcat [.alt (rs "To") (rs "Bill to"), rc ':', sp0, .grp 1 lazyAny, nlOrEnd],
    rcat [rs "Contract Party", sp0, rc ':', sp0, .grp 1 lazyAny, nlOrEnd],
    rcat [rs "B/L CONSIGNEE", sp0, rc ':', sp0, .grp 1 lazyAny, nlOrEnd],
    rcat [rs "ABC Company", sp0, .grp 1 lazyAny, nlOrEnd],
    rcat [rc '(', rs "Buyer", .alt (rc apos) (rc apos), rs "s Info)", lazyAny,
          .grp 1 (rcat [.plus (.cl alnumSpCls), rs "Company"])] ]

def gPoPats : List Regex :=
  [ rcat [ralts [rs "PO", rs "Purchase Order", rs "Order"], rc ' ',
          ralts [rs "No", rs "Number", rs "#"], .opt (rc '.'), .opt (rc ':'), sp0,
          .grp 1 (rcat [.plus (.cl wordCls), .plus (.cl dashDigCls)])],
    rcat [ralts [rs "PO", rs "Purchase Order", rs "Order"], rc ' ',
          ralts [rs "No", rs "Number", rs "#"], .opt (rc '.'), .opt (rc ':'), sp0,
          .grp 1 digits1],
    rcat [rs "Order No.", sp0, .grp 1 lazyAny, ralts [rc '\n', rs "Grade", rs "Origin"]],
    rcat [rs "Buyers", .opt (.alt (rc apos) (rc apos)), sp1, rs "Order No.", sp0,
          .grp 1 lazyAny, ralts [rc '\n', rs "Grade", .dollar]] ]

/-- Generic table-row pattern
`([A-Za-z0-9]+)\s+(Product [A-Za-z]|Grade [A-Za-z0-9]+)\s+([\d,]+)\s*(?:kg|mt)\s+(?:US\$)?([\d.]+)\s+(?:US\$)?([\d,.]+)`. -/
def gRowRe : Regex :=
  rcat [.grp 1 (.plus (.cl alnumCls)), sp1,
        .grp 2 (.alt (rcat [rs "Product ", .one (.cl alphaCls)])
                     (rcat [rs "Grade ", .plus (.cl alnumCls)])), sp1,
        .grp 3 (.plus (.cl numComma)), sp0, .alt (rs "kg") (rs "mt"), sp1,
        .opt (rs "US$"), .grp 4 (.plus (.cl numDot)), sp1,
        .opt (rs "US$"), .grp 5 (.plus (.cl numCls))]

/-- Generic section pattern (searched with `re.DOTALL`)
`(?:Product [A-Za-z]|Grade [A-Za-z0-9]+|Item:.*?).*?(\d+)(?:\s*|\n+)(?:kg|mt|KG|MT).*?(?:US\$|Unit Price:?\s*\$?)?\s*([\d,.]+).*?(?:US\$)?\s*([\d,.]+)`. -/
def gSecRe : Regex :=
  rcat [ralts [rcat [rs "Product ", .one (.cl alphaCls)],
               rcat [rs "Grade ", .plus (.cl alnumCls)],
               rcat [rs "Item:", lazyAny]],
        lazyAny, .grp 1 digits1, .alt sp0 (.plus (.cl nlCls)),
        ralts [rs "kg", rs "mt", rs "KG", rs "MT"],
        lazyAny, .opt (.alt (rs "US$") (rcat [rs "Unit Price", .opt (rc ':'), sp0, .opt (rc '$')])),
        sp0, .grp 2 (.plus (.cl numCls)),
        lazyAny, .opt (rs "US$"), sp0, .grp 3 (.plus (.cl numCls))]

/-- Generic product-name pattern
`(?:Product ([A-Z])|Grade ([A-Za-z0-9]+)|Item:\s*(.*?)(?:\n|$))` (plain search). -/
def gNameRe : Regex :=
  ralts [rcat [rs "Product ", .grp 1 (.one (.cl upperCls))],
         rcat [rs "Grade ", .grp 2 (.plus (.cl alnumCls))],
         rcat [rs "Item:", sp0, .grp 3 lazyAny, nlOrEnd]]

def gNamePats : List Regex :=
  [ rcat [rs "Item:", sp0, .grp 1 lazyAny, nlOrEnd],
    rcat [rs "Product", .opt (rc ':'), sp0, .grp 1 lazyAny, .alt (rc '\n') (rs "Quantity")],
    rcat [rs "Grade", sp1, .grp 1 (.plus (.cl alnumCls))] ]

def gQtyPats : List Regex :=
  [ rcat [rs "Quantity:", sp0, .grp 1 (.plus (.cl numCls)), sp0,
          ralts [rs "KG", rs "kg", rs "MT", rs "mt"]],
    rcat [rs "Qty", .opt (rc ':'), sp0, .grp 1 (.plus (.cl numCls)), sp0,
          ralts [rs "KG", rs "kg", rs "MT", rs "mt"]],
    rcat [rs "Qt", rc apos, rs "y", sp0, rs "(mt)", sp0, .grp 1 (.plus (.cl numDot))] ]

def gUpPats : List Regex :=
  [ rcat [rs "Unit Price:", sp0, .opt (rc '$'), sp0, .grp 1 (.plus (.cl numCls))],
    rcat [rs "Unit Price:", lazyAny, rs "per", sp0, lazyAny, .opt (rc '$'), sp0,
          .grp 1 (.plus (.cl numCls))],
    rcat [rs "Unit Price", sp0, rc '(', .plus (.cl notRp), rc ')', sp0,
          .grp 1 (.plus (.cl numCls))] ]

def gAmtPats : List Regex :=
  [ rcat [rs "EXT Price:", sp0, .grp 1 (.plus (.cl numCls))],
    rcat [rs "Amount:", sp0, .grp 1 (.plus (.cl numCls))],
    rcat [rs "Total Amount", sp0, .grp 1 (.plus (.cl numCls))] ]

def gTotPats : List Regex :=
  [ rcat [ralts [rs "TOTAL", rs "Total", rs "Grand Total"], lazyAny,
          .opt (.alt (rs "USD") (rs "US$")), sp0, .grp 1 (.plus (.cl numCls))],
    rcat [rs "Total Amount", .opt (rc ':'), sp0, .opt (.alt (rs "USD") (rs "US$")), sp0,
          .grp 1 (.plus (.cl numCls))],
    rcat [.alt (.one (.cl dollarCls)) (rs "USD"), sp0, .grp 1 (.plus (.cl numCls)),
          .alt (rcat [sp1, rs "total"]) (rcat [sp1, rs "USD"])] ]

def gPayPats : List Regex :=
  [ rcat [ralts [rcat [rs "Payment Term", .opt (rc 's')], rs "Terms of Payment",
                 rs "Terms", rs "Payment"], rc ':', sp0, .grp 1 lazyAny, nlOrEnd],
    rcat [rs "Net Due within", sp0, .grp 1 lazyAny, nlOrEnd],
    rcat [rs "Payment term", sp0, .opt (rc '\n'), sp0, .grp 1 lazyAny, nlOrEnd] ]

def gTermsPats : List Regex :=
  [ rcat [ralts [rs "Incoterms", rs "Inco Terms", rs "Shipping Terms",
                 rs "Delivery Terms", rs "Term"], rc ':', sp0, .grp 1 lazyAny, nlOrEnd],
    rcat [ralts [rs "CIF", rs "FOB", rs "EXW"], sp1, .grp 1 (.plus (.cl alphaSpCls))] ]

def gDestPats : List Regex :=
  [ rcat [ralts [rs "Destination", rs "Ship to", rs "Delivery Address",
                 rs "Port of Discharge", rs "Discharge Port", rs "PORT OF DISCHARGE"],
          rc ':', sp0, .grp 1 lazyAny, nlOrEnd],
    rcat [.alt (rs "To") (rs "Deliver to"), rc ':', sp0, .grp 1 lazyAny, nlOrEnd] ]

/-- Product-name resolution inside the generic section loop: the single
`name_match` search, else `"Unknown Product {i+1}"`. -/
def genSecName (t : Str) (i : Nat) : Str :=
  match reSearch noFl gNameRe t with
  | some res =>
      let k := res.2.2
      if g1 k ≠ [] then lstr "Product " ++ g1 k
      else if g2 k ≠ [] then lstr "Grade " ++ g2 k
      else if g3 k ≠ [] then g3 k
      else []
  | none => lstr "Unknown Product " ++ (Nat.repr (i + 1)).data

/-- Model of `extract_generic_data`. -/
def extract_generic_data (t : Str) : ExtractedOrder :=
  let product_rows := reFindall noFl gRowRe t
  let prods1 :=
    if product_rows ≠ [] then
      product_rows.map (fun k => (⟨pyStrip (g2 k), pyStrip (g3 k), pyStrip (g4 k), pyStrip (g5 k)⟩ : LineItem))
    else
      (reFindall daFl gSecRe t).enum.map (fun ik =>
        (⟨genSecName t ik.1, pyStrip (g1 ik.2), pyStrip (g2 ik.2), pyStrip (g3 ik.2)⟩ : LineItem))
  let product_name := extract_field_by_regex t gNamePats
  let quantity := extract_field_by_regex t gQtyPats
  let unit_price := extract_field_by_regex t gUpPats
  let amount := extract_field_by_regex t gAmtPats
  let prods :=
    if prods1 = [] then
      if product_name ≠ [] ∨ quantity ≠ [] then
        [⟨if product_name ≠ [] then product_name else lstr "Unknown Product",
          quantity, unit_price, amount⟩]
      else []
    else prods1
  { customer := extract_field_by_regex t gCustPats
    poNumber := extract_field_by_regex t gPoPats
    currency := currencyOf t
    products := prods
    totalAmount := extract_field_by_regex t gTotPats
    paymentTerms := extract_field_by_regex t gPayPats
    terms := extract_field_by_regex t gTermsPats
    destination := extract_field_by_regex t gDestPats }

/-! Service layer (`ocr_service.py`): result validation/cleaning, quality
assessment and the extraction orchestrator. -/

def numKeep (c : Char) : Bool := c.isDigit || c = ',' || c = '.'

/-- Effect of `re.sub(r'[^\d,.]', '', s)`. -/
def cleanNum (s : Str) : Str := s.filter numKeep

/-- Placeholder line item injected when no product was extracted. -/
def placeholderItem : LineItem := ⟨lstr "Unknown Product", [], [], []⟩

/-- Python `any(unit in q for unit in ["kg", "KG", "mt", "MT"])`. -/
def hasUnitTok (s : Str) : Bool :=
  [lstr "kg", lstr "KG", lstr "mt", lstr "MT"].any (fun u => substrIn u s)

/-- Python `any(symbol in s for symbol in ["$", "USD"])`. -/
def hasCurTok (s : Str) : Bool :=
  [lstr "$", lstr "USD"].any (fun u => substrIn u s)

/-- Per-product cleaning loop body of `validate_and_clean_result`. -/
def cleanItem (p : LineItem) : LineItem :=
  { name := p.name
    quantity := if p.quantity ≠ [] ∧ hasUnitTok p.quantity then cleanNum p.quantity else p.quantity
    unitPrice := if p.unitPrice ≠ [] ∧ hasCurTok p.unitPrice then cleanNum p.unitPrice else p.unitPrice
    amount := if p.amount ≠ [] ∧ hasCurTok p.amount then cleanNum p.amount else p.amount }

/-- Model of `validate_and_clean_result` (the in-place mutation of the
result dict, as a function). -/
def validate_and_clean_result (r : ExtractedOrder) : ExtractedOrder :=
  let ps0 := if r.products = [] then [placeholderItem] else r.products
  { r with
    products := ps0.map cleanItem
    totalAmount :=
      if r.totalAmount ≠ [] ∧ hasCurTok r.totalAmount then cleanNum r.totalAmount
      else r.totalAmount }

structure QualityAssessment where
  completeness : ℚ
  confidence : ℚ
  missing_fields : List Str
  recommendation : Str
deriving DecidableEq

def essential_fields : List (Str × (ExtractedOrder → Str)) :=
  [(lstr "customer", ExtractedOrder.customer),
   (lstr "poNumber", ExtractedOrder.poNumber),
   (lstr "totalAmount", ExtractedOrder.totalAmount)]

def product_fields : List (Str × (LineItem → Str)) :=
  [(lstr "name", LineItem.name),
   (lstr "quantity", LineItem.quantity),
   (lstr "unitPrice", LineItem.unitPrice),
   (lstr "amount", LineItem.amount)]

/-- Python `", ".join(xs)`. -/
def joinCS : List Str → Str
  | [] => []
  | [x] => x
  | x :: rest => x ++ lstr ", " ++ joinCS rest

def lowMsg : Str := lstr "抽出品質が低いため、手動で入力を確認してください。"
def midMsg : Str := lstr "不足フィールドを手動で補完することをお勧めします。"
def goodMsg : Str := lstr "抽出品質は良好です。内容を確認して進めてください。"

/-- Python `round(x, 2)` (the reachable values are never half-way cases,
so round-half-even and round-half-up agree). -/
def round2 (q : ℚ) : ℚ := (round (q * 100) : ℤ) / 100

/-- Model of `analyze_extraction_quality`. -/
def analyze_extraction_quality (r : ExtractedOrder) : QualityAssessment :=
  let missing0 := (essential_fields.filter (fun fa => fa.2 r = [])).map (·.1)
  let missing :=
    match r.products with
    | [] => missing0 ++ [lstr "products"]
    | fp :: _ =>
        let mpf := (product_fields.filter (fun fa => fa.2 fp = [])).map (·.1)
        if mpf ≠ [] then missing0 ++ [lstr "products(" ++ joinCS mpf ++ lstr ")"]
        else missing0
  let total_fields : ℚ :=
    (essential_fields.length : ℚ) +
      (if r.products.length > 0 then (product_fields.length : ℚ) else 1)
  let completeness := (total_fields - missing.length) / total_fields
  { completeness := round2 completeness
    confidence := round2 (min 1 (completeness * 1.2))
    missing_fields := missing
    recommendation :=
      if completeness < 0.5 then lowMsg
      else if completeness < 0.8 then midMsg
      else goodMsg }

/-- Model of `extract_po_data` on a text input (the string branch of the
Python function): identify the format, dispatch on the 0.4 confidence
threshold, then validate and clean. -/
def extract_po_data (t : Str) : ExtractedOrder :=
  let pf := identify_po_format t
  let result :=
    if pf.1 = lstr "format1" ∧ pf.2 ≥ 0.4 then extract_format1_data t
    else if pf.1 = lstr "format2" ∧ pf.2 ≥ 0.4 then extract_format2_data t
    else if pf.1 = lstr "format3" ∧ pf.2 ≥ 0.4 then extract_format3_data t
    else extract_generic_data t
  validate_and_clean_result result

/-- The all-empty record produced by every extractor before any field is
filled in. -/
def emptyOrder : ExtractedOrder := ⟨[], [], [], [], [], [], [], []⟩

/-! Helper lemmas about the cleaning primitives. -/

lemma substrIn_head_mem {c : Char} {n s : Str} (h : substrIn (c :: n) s = true) : c ∈ s := by
  induction s with
  | nil => simp [substrIn, isPre] at h
  | cons d rest ih =>
      simp only [substrIn, Bool.or_eq_true] at h
      rcases h with h | h
      · simp only [isPre, Bool.and_eq_true, decide_eq_true_eq] at h
        exact h.1 ▸ List.mem_cons_self d rest
      · exact List.mem_cons_of_mem d (ih h)

lemma mem_cleanNum {c : Char} {s : Str} (h : c ∈ cleanNum s) : numKeep c = true :=
  (List.mem_filter.mp h).2

lemma substrIn_cleanNum_false (c : Char) (m : Str) (hc : numKeep c = false) (s : Str) :
    substrIn (c :: m) (cleanNum s) = false := by
  by_contra h
  rw [Bool.not_eq_false] at h
  have := mem_cleanNum (substrIn_head_mem h)
  rw [hc] at this
  exact Bool.false_ne_true this

lemma hasUnitTok_cleanNum (s : Str) : hasUnitTok (cleanNum s) = false := by
  simp only [hasUnitTok, List.any_cons, List.any_nil, Bool.or_eq_false_iff]
  exact ⟨substrIn_cleanNum_false 'k' (lstr "g") (by decide) s,
    substrIn_cleanNum_false 'K' (lstr "G") (by decide) s,
    substrIn_cleanNum_false 'm' (lstr "t") (by decide) s,
    substrIn_cleanNum_false 'M' (lstr "T") (by decide) s, trivial⟩

lemma hasCurTok_cleanNum (s : Str) : hasCurTok (cleanNum s) = false := by
  simp only [hasCurTok, List.any_cons, List.any_nil, Bool.or_eq_false_iff]
  exact ⟨substrIn_cleanNum_false '$' [] (by decide) s,
    substrIn_cleanNum_false 'U' (lstr "SD") (by decide) s, trivial⟩

lemma hasUnitTok_nil : hasUnitTok [] = false := by decide

lemma hasCurTok_nil : hasCurTok [] = false := by decide

/-- The per-product cleaning step ignores the non-emptiness test: an empty
field contains no trigger token, so the code's `product["quantity"] and ...`
guard coincides with the pure token test. -/
lemma cleanItem_eq (p : LineItem) :
    cleanItem p =
      ⟨p.name,
       if hasUnitTok p.quantity then cleanNum p.quantity else p.quantity,
       if hasCurTok p.unitPrice then cleanNum p.unitPrice else p.unitPrice,
       if hasCurTok p.amount then cleanNum p.amount else p.amount⟩ := by
  have hq : (if p.quantity ≠ [] ∧ hasUnitTok p.quantity then cleanNum p.quantity else p.quantity)
      = (if hasUnitTok p.quantity then cleanNum p.quantity else p.quantity) := by
    by_cases h : p.quantity = [] <;> simp [h, hasUnitTok_nil]
  have hu : (if p.unitPrice ≠ [] ∧ hasCurTok p.unitPrice then cleanNum p.unitPrice else p.unitPrice)
      = (if hasCurTok p.unitPrice then cleanNum p.unitPrice else p.unitPrice) := by
    by_cases h : p.unitPrice = [] <;> simp [h, hasCurTok_nil]
  have ha : (if p.amount ≠ [] ∧ hasCurTok p.amount then cleanNum p.amount else p.amount)
      = (if hasCurTok p.amount then cleanNum p.amount else p.amount) := by
    by_cases h : p.amount = [] <;> simp [h, hasCurTok_nil]
  unfold cleanItem
  rw [hq, hu, ha]

lemma cleanItem_idem (p : LineItem) : cleanItem (cleanItem p) = cleanItem p := by
  rw [cleanItem_eq p, cleanItem_eq]
  by_cases h1 : hasUnitTok p.quantity <;>
    by_cases h2 : hasCurTok p.unitPrice <;>
      by_cases h3 : hasCurTok p.amount <;>
        simp [h1, h2, h3, hasUnitTok_cleanNum, hasCurTok_cleanNum]

lemma cleanItem_name (p : LineItem) : (cleanItem p).name = p.name := rfl

lemma cleanItem_placeholder : cleanItem placeholderItem = placeholderItem := by decide

/-- Products are never empty after validation. -/
lemma validate_products_ne_nil (r : ExtractedOrder) :
    (validate_and_clean_result r).products ≠ [] := by
  unfold validate_and_clean_result
  by_cases h : r.products = [] <;> simp [h]

lemma validate_products_eq (r : ExtractedOrder) :
    (validate_and_clean_result r).products =
      (if r.products = [] then [placeholderItem] else r.products).map cleanItem := rfl

lemma validate_totalAmount_eq (r : ExtractedOrder) :
    (validate_and_clean_result r).totalAmount =
      if r.totalAmount ≠ [] ∧ hasCurTok r.totalAmount then cleanNum r.totalAmount
      else r.totalAmount := rfl

/-- C5: after `validate_and_clean_result`, the products list always has
length at least 1, and an empty input products list becomes exactly the
single placeholder item (name "Unknown Product", other fields empty). -/
theorem validate_nonempty_products (r : ExtractedOrder) :
    1 ≤ (validate_and_clean_result r).products.length ∧
    (r.products = [] → (validate_and_clean_result r).products = [placeholderItem]) := by
  constructor
  · have hne := validate_products_ne_nil r
    cases hh : (validate_and_clean_result r).products with
    | nil => exact absurd hh hne
    | cons a l => simp
  · intro h
    rw [validate_products_eq, if_pos h]
    simp [cleanItem_placeholder]

/-- Witness for C5 at the all-empty order. -/
theorem validate_nonempty_products_witness :
    (validate_and_clean_result emptyOrder).products = [placeholderItem] :=
  (validate_nonempty_products emptyOrder).2 rfl

/-- C6: `validate_and_clean_result` is idempotent. -/
theorem validateAndClean_idempotent (r : ExtractedOrder) :
    validate_and_clean_result (validate_and_clean_result r) = validate_and_clean_result r := by
  unfold validate_and_clean_result
  by_cases h : r.products = [] <;>
    by_cases h2 : r.totalAmount ≠ [] ∧ hasCurTok r.totalAmount <;>
      simp [h, h2, List.map_map, Function.comp_def, cleanItem_idem, cleanItem_placeholder,
        hasCurTok_cleanNum, List.map_eq_nil_iff]

/-- C7: validation strips a quantity to digits/commas/periods exactly when
it contains one of kg/KG/mt/MT, and strips totalAmount, unitPrice and
amount the same way exactly when they contain "$" or "USD"; fields without
a trigger token are unchanged.  The scenario values are included:
"1,000 kg" cleans to "1,000" and "US$ 50,000.00" to "50,000.00". -/
theorem validate_strips_decorations (r : ExtractedOrder) :
    ((validate_and_clean_result r).totalAmount =
       if hasCurTok r.totalAmount then cleanNum r.totalAmount else r.totalAmount) ∧
    ((validate_and_clean_result r).products =
       (if r.products = [] then [placeholderItem] else r.products).map (fun p =>
         (⟨p.name,
           if hasUnitTok p.quantity then cleanNum p.quantity else p.quantity,
           if hasCurTok p.unitPrice then cleanNum p.unitPrice else p.unitPrice,
           if hasCurTok p.amount then cleanNum p.amount else p.amount⟩ : LineItem))) ∧
    cleanNum (lstr "1,000 kg") = lstr "1,000" ∧
    cleanNum (lstr "US$ 50,000.00") = lstr "50,000.00" ∧
    hasUnitTok (lstr "1,000 kg") = true ∧ hasCurTok (lstr "US$ 50,000.00") = true := by
  refine ⟨?_, ?_, by decide, by decide, by decide, by decide⟩
  · rw [validate_totalAmount_eq]
    by_cases h : r.totalAmount = [] <;> simp [h, hasCurTok_nil]
  · rw [validate_products_eq]
    exact List.map_congr_left (fun p _ => cleanItem_eq p)

/-- C10: frame of `validate_and_clean_result`: customer, poNumber,
currency, paymentTerms, terms, destination are unchanged, and product
names are preserved (modulo the placeholder injected for an empty list). -/
theorem validate_frame (r : ExtractedOrder) :
    (validate_and_clean_result r).customer = r.customer ∧
    (validate_and_clean_result r).poNumber = r.poNumber ∧
    (validate_and_clean_result r).currency = r.currency ∧
    (validate_and_clean_result r).paymentTerms = r.paymentTerms ∧
    (validate_and_clean_result r).terms = r.terms ∧
    (validate_and_clean_result r).destination = r.destination ∧
    (validate_and_clean_result r).products.map LineItem.name =
      (if r.products = [] then [placeholderItem] else r.products).map LineItem.name := by
  refine ⟨rfl, rfl, rfl, rfl, rfl, rfl, ?_⟩
  rw [validate_products_eq, List.map_map]
  exact List.map_congr_left (fun p _ => rfl)

/-- Quality assessment of any order that is missing exactly `customer`
(among the essential fields) and has an empty products list:
2 of 4 slots are filled, and the recommendation is the MIDDLE tier
(the `completeness < 0.5` test is strict, and completeness is exactly 0.5). -/
lemma quality_eval (r : ExtractedOrder) (h1 : r.customer = []) (h2 : r.poNumber ≠ [])
    (h3 : r.totalAmount ≠ []) (h4 : r.products = []) :
    analyze_extraction_quality r = ⟨1/2, 3/5, [lstr "customer", lstr "products"], midMsg⟩ := by
  unfold analyze_extraction_quality
  rw [h4]
  simp only [essential_fields, List.filter_cons, List.filter_nil, h1, h2, h3,
    decide_eq_true_eq, List.map_cons, List.map_nil, List.length_nil, List.length_cons,
    gt_iff_lt, lt_self_iff_false, if_false, List.nil_append, List.cons_append,
    QualityAssessment.mk.injEq]
  norm_num [round2, round_eq, midMsg]

/-- Concrete order for the Scenario E quality check: empty customer,
non-empty poNumber and totalAmount, empty products. -/
def qOrd : ExtractedOrder := ⟨[], lstr "123", [], [], lstr "100", [], [], []⟩

/-- C1 counterexample: on an order with empty customer, non-empty
poNumber/totalAmount and empty products, the recommendation is NOT the
low-quality tier message (completeness is exactly 0.5 and the low tier
requires completeness < 0.5). -/
theorem quality_scenarioE_counterexample :
    qOrd.customer = [] ∧ qOrd.poNumber ≠ [] ∧ qOrd.totalAmount ≠ [] ∧ qOrd.products = [] ∧
    (analyze_extraction_quality qOrd).recommendation ≠ lowMsg := by
  refine ⟨rfl, by decide, by decide, rfl, ?_⟩
  rw [quality_eval qOrd rfl (by decide) (by decide) rfl]
  decide

/-- C1 amended: for every order with empty customer, non-empty poNumber
and totalAmount, and empty products, `analyze_extraction_quality` reports
missing_fields containing "customer" and "products", completeness exactly
0.5, and the MIDDLE-tier recommendation ("recommend manually filling
missing fields"), not the low-quality tier. -/
theorem quality_scenarioE_amended (r : ExtractedOrder) (h1 : r.customer = [])
    (h2 : r.poNumber ≠ []) (h3 : r.totalAmount ≠ []) (h4 : r.products = []) :
    (lstr "customer") ∈ (analyze_extraction_quality r).missing_fields ∧
    (lstr "products") ∈ (analyze_extraction_quality r).missing_fields ∧
    (analyze_extraction_quality r).completeness = 1/2 ∧
    (analyze_extraction_quality r).recommendation = midMsg := by
  rw [quality_eval r h1 h2 h3 h4]
  exact ⟨by decide, by decide, rfl, rfl⟩

/-- Witness for C1 amended at the concrete order `qOrd`. -/
theorem quality_scenarioE_witness :
    (lstr "customer") ∈ (analyze_extraction_quality qOrd).missing_fields ∧
    (lstr "products") ∈ (analyze_extraction_quality qOrd).missing_fields ∧
    (analyze_extraction_quality qOrd).completeness = 1/2 ∧
    (analyze_extraction_quality qOrd).recommendation = midMsg :=
  quality_scenarioE_amended qOrd rfl (by decide) (by decide) rfl

/-- C4 counterexample: there is NO single total shared by all three
formats' signature-weight sums (they are 33, 36 and 35). -/
theorem format_weight_totals_counterexample :
    ¬ ∃ T : Nat, ∀ fw ∈ format_features, (fw.2.map Prod.snd).sum = T := by
  rintro ⟨T, h⟩
  have h1 := h _ (List.get_mem format_features 0 (by decide))
  have h2 := h _ (List.get_mem format_features 1 (by decide))
  exact absurd (h1.trans h2.symm) (by decide)

/-- C4 amended: each format has its own fixed weight total — 33 for
format1, 36 for format2 and 35 for format3 — and `totalWeightOf`, the
normalization denominator used by `identify_po_format`, maps each format
name to exactly that per-format sum. -/
theorem format_weight_totals_amended :
    (format_features.map (fun fw => (fw.1, (fw.2.map Prod.snd).sum))) =
      [(lstr "format1", 33), (lstr "format2", 36), (lstr "format3", 35)] ∧
    totalWeightOf (lstr "format1") = 33 ∧ totalWeightOf (lstr "format2") = 36 ∧
    totalWeightOf (lstr "format3") = 35 := by decide

/-- Closed form of the positional-pairing fallback loop: index `j` of the
name list yields an item exactly when both index bounds hold. -/
lemma fb2Items_eq (qtys prices : List Str) :
    ∀ (ns : List Str) (i : Nat),
      fb2Items qtys prices i ns =
        (List.range ns.length).filterMap (fun j =>
          if i + j < qtys.length ∧ (i + j) * 2 + 1 < prices.length then
            some ⟨lstr "Product " ++ ns.getD j [], qtys.getD (i + j) [],
                  prices.getD ((i + j) * 2) [], prices.getD ((i + j) * 2 + 1) []⟩
          else none)
  | [], i => by simp [fb2Items]
  | n :: ns, i => by
      rw [fb2Items, fb2Items_eq qtys prices ns (i + 1), List.length_cons,
        List.range_succ_eq_map, List.filterMap_cons, List.filterMap_map]
      by_cases h : i < qtys.length ∧ i * 2 + 1 < prices.length
      · rw [if_pos (by omega : i * 2 < prices.length),
          if_pos (by omega : i * 2 + 1 < prices.length)]
        simp only [Nat.add_zero, List.getD_cons_zero, if_pos h]
        refine congrArg₂ _ rfl ?_
        apply List.filterMap_congr
        intro j _
        simp only [Function.comp_apply, List.getD_cons_succ]
        have e : i + 1 + j = i + (j + 1) := by omega
        rw [e]
      · simp only [Nat.add_zero, List.getD_cons_zero, if_neg h, List.nil_append]
        apply List.filterMap_congr
        intro j _
        simp only [Function.comp_apply, List.getD_cons_succ]
        have e : i + 1 + j = i + (j + 1) := by omega
        rw [e]

/-- C9: in the format2 extractor, when both the table-row pattern and the
section pattern yield no rows, the positional-pairing fallback appends an
item for index i exactly when `i < |quantities|` and `2*i+1 < |prices|`,
pairing name i with quantity i and prices 2i / 2i+1; names beyond those
bounds are silently dropped. -/
theorem format2_positional_fallback (t : Str) (names qtys prices : List Str)
    (hn : names = (reFindall noFl f2nameRe t).map g1)
    (hq : qtys = (reFindall noFl f2qtyRe t).map g1)
    (hp : prices = (reFindall noFl f2priceRe t).map g1)
    (hrow : reFindall noFl f2rowRe t = [])
    (hsec : reFindall noFl f2secRe t = []) :
    (extract_format2_data t).products =
      (List.range names.length).filterMap (fun i =>
        if i < qtys.length ∧ 2 * i + 1 < prices.length then
          some ⟨lstr "Product " ++ names.getD i [], qtys.getD i [],
                prices.getD (2 * i) [], prices.getD (2 * i + 1) []⟩
        else none) := by
  unfold extract_format2_data
  rw [hrow, hsec]
  simp only [List.map_nil, ne_eq, not_true_eq_false, if_false, ite_self, if_pos rfl]
  rw [← hn, ← hq, ← hp, fb2Items_eq]
  apply List.filterMap_congr
  intro j _
  simp only [Nat.zero_add]
  rw [Nat.mul_comm]

/-- Text reaching the format2 positional fallback: one product name, one
quantity and two prices, scattered so that neither the table-row nor the
section pattern matches. -/
def fbT : Str := lstr "Product A\n200 kg\nUS$5.00\nUS$1,000"

/-- Witness for C9 at `fbT`. -/
theorem format2_positional_fallback_witness :
    (extract_format2_data fbT).products =
      [⟨lstr "Product A", lstr "200", lstr "5.00", lstr "1,000"⟩] := by
  rw [format2_positional_fallback fbT _ _ _ rfl rfl rfl (by decide) (by decide)]
  decide

/-- C2: the orchestrator dispatches on the identified format and the 0.4
confidence threshold: format1/format2/format3 with confidence at least
0.4 go to the respective extractor, and any other outcome (unknown
format, or confidence below 0.4) goes to the generic extractor; the
chosen extractor's result is validated and cleaned. -/
theorem orchestrator_dispatch (t : Str) (f : Str) (c : ℚ)
    (h : identify_po_format t = (f, c)) :
    (f = lstr "format1" → c ≥ (0.4 : ℚ) →
      extract_po_data t = validate_and_clean_result (extract_format1_data t)) ∧
    (f = lstr "format2" → c ≥ (0.4 : ℚ) →
      extract_po_data t = validate_and_clean_result (extract_format2_data t)) ∧
    (f = lstr "format3" → c ≥ (0.4 : ℚ) →
      extract_po_data t = validate_and_clean_result (extract_format3_data t)) ∧
    ((f = lstr "unknown" ∨ c < (0.4 : ℚ)) →
      extract_po_data t = validate_and_clean_result (extract_generic_data t)) := by
  simp only [extract_po_data, h]
  refine ⟨?_, ?_, ?_, ?_⟩
  · rintro rfl hc
    rw [if_pos ⟨rfl, hc⟩]
  · rintro rfl hc
    rw [if_neg (fun hh => absurd hh.1 (by decide)), if_pos ⟨rfl, hc⟩]
  · rintro rfl hc
    rw [if_neg (fun hh => absurd hh.1 (by decide)),
      if_neg (fun hh => absurd hh.1 (by decide)), if_pos ⟨rfl, hc⟩]
  · rintro (rfl | hc)
    · rw [if_neg (fun hh => absurd hh.1 (by decide)),
        if_neg (fun hh => absurd hh.1 (by decide)),
        if_neg (fun hh => absurd hh.1 (by decide))]
    · rw [if_neg (fun hh => absurd hh.2 (not_le.mpr hc)),
        if_neg (fun hh => absurd hh.2 (not_le.mpr hc)),
        if_neg (fun hh => absurd hh.2 (not_le.mpr hc))]

/-- Text whose format1 signature score is 15 (of 33): the Buyer-Info
marker (10) plus "ABC Company" (5). -/
def buyT : Str := lstr "(Buyer" ++ [apos] ++ lstr "s Info) ABC Company"

/-- Evaluation principle for `identify_po_format` once the per-format
scores are known and not all zero. -/
lemma identify_eq_of (t : Str) (x : Str × Nat) (rest : List (Str × Nat))
    (hs : format_features.map (fun fw => (fw.1, scoreOf fw.2 t)) = x :: rest)
    (hnz : ((x :: rest).all fun ns => ns.2 = 0) = false) :
    identify_po_format t =
      ((pymax x rest).1,
        if totalWeightOf (pymax x rest).1 > 0
        then ((pymax x rest).2 : ℚ) / (totalWeightOf (pymax x rest).1 : ℚ) else 0) := by
  unfold identify_po_format
  rw [hs, if_neg (by rw [hnz]; exact Bool.false_ne_true)]

lemma identify_buyT : identify_po_format buyT = (lstr "format1", 15 / 33) := by
  rw [identify_eq_of buyT (lstr "format1", 15) [(lstr "format2", 0), (lstr "format3", 0)]
    (by decide) (by decide)]
  rw [show pymax (lstr "format1", 15) [(lstr "format2", 0), (lstr "format3", 0)] =
    (lstr "format1", 15) from by decide]
  rw [show totalWeightOf (lstr "format1") = 33 from by decide]
  norm_num

/-- Witness for C2: on `buyT` the identifier reports format1 with
confidence 15/33 ≥ 0.4, and the orchestrator output is the validated
format1 extraction. -/
theorem orchestrator_dispatch_witness :
    extract_po_data buyT = validate_and_clean_result (extract_format1_data buyT) :=
  (orchestrator_dispatch buyT (lstr "format1") (15 / 33) identify_buyT).1 rfl (by norm_num)

/-! Helper lemmas about signature scores, for the format-identifier
specification. -/

def fmtName (k : Nat) : Str := (format_features.getD k ([], [])).1
def fmtScore (k : Nat) (t : Str) : Nat := scoreOf (format_features.getD k ([], [])).2 t
def fmtTotal (k : Nat) : Nat := totalWeightOf (fmtName k)

lemma scoreOf_foldl_shift (t : Str) (a : Nat) (l : List (Regex × Nat)) :
    l.foldl (fun sc pw => if reHas icFl pw.1 t then sc + pw.2 else sc) a =
      a + l.foldl (fun sc pw => if reHas icFl pw.1 t then sc + pw.2 else sc) 0 := by
  induction l generalizing a with
  | nil => simp
  | cons pw rest ih =>
      simp only [List.foldl_cons]
      rw [ih, ih (if reHas icFl pw.1 t then 0 + pw.2 else 0)]
      by_cases h : reHas icFl pw.1 t <;> simp [h] <;> omega

lemma scoreOf_cons (pw : Regex × Nat) (rest : List (Regex × Nat)) (t : Str) :
    scoreOf (pw :: rest) t = (if reHas icFl pw.1 t then pw.2 else 0) + scoreOf rest t := by
  unfold scoreOf
  simp only [List.foldl_cons]
  rw [scoreOf_foldl_shift]
  by_cases h : reHas icFl pw.1 t <;> simp [h]

lemma scoreOf_zero_iff (t : Str) (feats : List (Regex × Nat))
    (hpos : ∀ pw ∈ feats, 0 < pw.2) :
    scoreOf feats t = 0 ↔ ∀ pw ∈ feats, reHas icFl pw.1 t = false := by
  induction feats with
  | nil => simp [scoreOf]
  | cons pw rest ih =>
      rw [scoreOf_cons, List.forall_mem_cons]
      have hpw := hpos pw (List.mem_cons_self pw rest)
      have hrest := fun q hq => hpos q (List.mem_cons_of_mem pw hq)
      constructor
      · intro h
        have h1 : (if reHas icFl pw.1 t then pw.2 else 0) = 0 := by omega
        have h2 : scoreOf rest t = 0 := by omega
        constructor
        · by_cases hm : reHas icFl pw.1 t
          · rw [if_pos hm] at h1; omega
          · exact Bool.eq_false_iff.mpr hm
        · exact (ih hrest).mp h2
      · rintro ⟨h1, h2⟩
        rw [h1, if_neg (by simp), (ih hrest).mpr h2]

lemma scoreOf_le_total (t : Str) (feats : List (Regex × Nat)) :
    scoreOf feats t ≤ (feats.map Prod.snd).sum := by
  induction feats with
  | nil => simp [scoreOf]
  | cons pw rest ih =>
      rw [scoreOf_cons, List.map_cons, List.sum_cons]
      by_cases h : reHas icFl pw.1 t <;> simp [h] <;> omega

/-- C3: `identify_po_format` returns ("unknown", 0) exactly when no
signature pattern of any format matches; otherwise it returns the
first-seen format of maximal score (table order format1, format2,
format3) with confidence equal to the winning score divided by that
format's own total weight, and the confidence always lies in [0, 1]. -/
theorem identify_format_spec (t : Str) :
    (identify_po_format t = (lstr "unknown", 0) ↔
      ∀ fw ∈ format_features, ∀ pw ∈ fw.2, reHas icFl pw.1 t = false) ∧
    ((∃ fw ∈ format_features, ∃ pw ∈ fw.2, reHas icFl pw.1 t = true) →
      ∃ k, k < 3 ∧
        identify_po_format t = (fmtName k, (fmtScore k t : ℚ) / (fmtTotal k : ℚ)) ∧
        (∀ j, j < 3 → fmtScore j t ≤ fmtScore k t) ∧
        (∀ j, j < k → fmtScore j t < fmtScore k t)) ∧
    0 ≤ (identify_po_format t).2 ∧ (identify_po_format t).2 ≤ 1 := by
  have hnm : (∀ fw ∈ format_features, ∀ pw ∈ fw.2, reHas icFl pw.1 t = false) ↔
      (fmtScore 0 t = 0 ∧ fmtScore 1 t = 0 ∧ fmtScore 2 t = 0) := by
    rw [show format_features = [(lstr "format1", fmt1feats), (lstr "format2", fmt2feats),
      (lstr "format3", fmt3feats)] from rfl]
    simp only [List.mem_cons, List.not_mem_nil, or_false, forall_eq_or_imp, forall_eq]
    rw [← scoreOf_zero_iff t fmt1feats (by decide), ← scoreOf_zero_iff t fmt2feats (by decide),
      ← scoreOf_zero_iff t fmt3feats (by decide)]
    exact Iff.rfl
  have hexneg : (∃ fw ∈ format_features, ∃ pw ∈ fw.2, reHas icFl pw.1 t = true) →
      ¬ (∀ fw ∈ format_features, ∀ pw ∈ fw.2, reHas icFl pw.1 t = false) := by
    rintro ⟨fw, hfw, pw, hpw, hm⟩ hall
    rw [hall fw hfw pw hpw] at hm
    exact Bool.false_ne_true hm
  by_cases hz : fmtScore 0 t = 0 ∧ fmtScore 1 t = 0 ∧ fmtScore 2 t = 0
  · have hid : identify_po_format t = (lstr "unknown", 0) := by
      unfold identify_po_format
      rw [show format_features.map (fun fw => (fw.1, scoreOf fw.2 t)) =
        [(lstr "format1", fmtScore 0 t), (lstr "format2", fmtScore 1 t),
         (lstr "format3", fmtScore 2 t)] from rfl]
      rw [if_pos (by simp [hz.1, hz.2.1, hz.2.2])]
    refine ⟨⟨fun _ => hnm.mpr hz, fun _ => hid⟩, ?_, ?_⟩
    · intro hex
      exact absurd (hnm.mpr hz) (hexneg hex)
    · rw [hid]
      norm_num
  · have hnz : (([(lstr "format1", fmtScore 0 t), (lstr "format2", fmtScore 1 t),
        (lstr "format3", fmtScore 2 t)]).all fun ns => ns.2 = 0) = false := by
      by_contra hh
      rw [Bool.not_eq_false] at hh
      apply hz
      simpa using hh
    have hid0 := identify_eq_of t (lstr "format1", fmtScore 0 t)
      [(lstr "format2", fmtScore 1 t), (lstr "format3", fmtScore 2 t)] rfl hnz
    have hb1 : fmtScore 0 t ≤ 33 := by
      have h := scoreOf_le_total t fmt1feats
      rw [show (fmt1feats.map Prod.snd).sum = 33 from by decide] at h
      exact h
    have hb2 : fmtScore 1 t ≤ 36 := by
      have h := scoreOf_le_total t fmt2feats
      rw [show (fmt2feats.map Prod.snd).sum = 36 from by decide] at h
      exact h
    have hb3 : fmtScore 2 t ≤ 35 := by
      have h := scoreOf_le_total t fmt3feats
      rw [show (fmt3feats.map Prod.snd).sum = 35 from by decide] at h
      exact h
    by_cases hc2 : fmtScore 1 t > fmtScore 0 t
    · by_cases hc3 : fmtScore 2 t > fmtScore 1 t
      · -- winner: format3
        have hpm : pymax (lstr "format1", fmtScore 0 t)
            [(lstr "format2", fmtScore 1 t), (lstr "format3", fmtScore 2 t)] =
            (lstr "format3", fmtScore 2 t) := by
          simp [pymax, hc2, hc3]
        rw [hpm, show totalWeightOf (lstr "format3") = 35 from by decide,
          if_pos (by norm_num : (35 : Nat) > 0)] at hid0
        have hid1 : identify_po_format t =
            (lstr "format3", (fmtScore 2 t : ℚ) / ((35 : Nat) : ℚ)) := hid0
        refine ⟨⟨fun hh => ?_, fun hno => absurd (hnm.mp hno) hz⟩, ?_, ?_⟩
        · have h2 := hid1.symm.trans hh
          rw [Prod.mk.injEq] at h2
          exact absurd h2.1 (by decide)
        · intro _
          refine ⟨2, by omega, ?_, ?_, ?_⟩
          · rw [show fmtName 2 = lstr "format3" from rfl,
              show fmtTotal 2 = 35 from by decide]
            exact hid1
          · intro j hj
            interval_cases j <;> omega
          · intro j hj
            interval_cases j <;> omega
        · rw [hid1]
          constructor
          · show (0 : ℚ) ≤ (fmtScore 2 t : ℚ) / ((35 : Nat) : ℚ)
            positivity
          · show (fmtScore 2 t : ℚ) / ((35 : Nat) : ℚ) ≤ 1
            rw [div_le_one (Nat.cast_pos.mpr (by norm_num))]
            exact_mod_cast hb3
      · -- winner: format2
        have hpm : pymax (lstr "format1", fmtScore 0 t)
            [(lstr "format2", fmtScore 1 t), (lstr "format3", fmtScore 2 t)] =
            (lstr "format2", fmtScore 1 t) := by
          simp [pymax, hc2, hc3]
        rw [hpm, show totalWeightOf (lstr "format2") = 36 from by decide,
          if_pos (by norm_num : (36 : Nat) > 0)] at hid0
        have hid1 : identify_po_format t =
            (lstr "format2", (fmtScore 1 t : ℚ) / ((36 : Nat) : ℚ)) := hid0
        refine ⟨⟨fun hh => ?_, fun hno => absurd (hnm.mp hno) hz⟩, ?_, ?_⟩
        · have h2 := hid1.symm.trans hh
          rw [Prod.mk.injEq] at h2
          exact absurd h2.1 (by decide)
        · intro _
          refine ⟨1, by omega, ?_, ?_, ?_⟩
          · rw [show fmtName 1 = lstr "format2" from rfl,
              show fmtTotal 1 = 36 from by decide]
            exact hid1
          · intro j hj
            interval_cases j <;> omega
          · intro j hj
            interval_cases j <;> omega
        · rw [hid1]
          constructor
          · show (0 : ℚ) ≤ (fmtScore 1 t : ℚ) / ((36 : Nat) : ℚ)
            positivity
          · show (fmtScore 1 t : ℚ) / ((36 : Nat) : ℚ) ≤ 1
            rw [div_le_one (Nat.cast_pos.mpr (by norm_num))]
            exact_mod_cast hb2
    · by_cases hc3 : fmtScore 2 t > fmtScore 0 t
      · -- winner: format3 (format2 never led)
        have hpm : pymax (lstr "format1", fmtScore 0 t)
            [(lstr "format2", fmtScore 1 t), (lstr "format3", fmtScore 2 t)] =
            (lstr "format3", fmtScore 2 t) := by
          simp [pymax, hc2, hc3]
        rw [hpm, show totalWeightOf (lstr "format3") = 35 from by decide,
          if_pos (by norm_num : (35 : Nat) > 0)] at hid0
        have hid1 : identify_po_format t =
            (lstr "format3", (fmtScore 2 t : ℚ) / ((35 : Nat) : ℚ)) := hid0
        refine ⟨⟨fun hh => ?_, fun hno => absurd (hnm.mp hno) hz⟩, ?_, ?_⟩
        · have h2 := hid1.symm.trans hh
          rw [Prod.mk.injEq] at h2
          exact absurd h2.1 (by decide)
        · intro _
          refine ⟨2, by omega, ?_, ?_, ?_⟩
          · rw [show fmtName 2 = lstr "format3" from rfl,
              show fmtTotal 2 = 35 from by decide]
            exact hid1
          · intro j hj
            interval_cases j <;> omega
          · intro j hj
            interval_cases j <;> omega
        · rw [hid1]
          constructor
          · show (0 : ℚ) ≤ (fmtScore 2 t : ℚ) / ((35 : Nat) : ℚ)
            positivity
          · show (fmtScore 2 t : ℚ) / ((35 : Nat) : ℚ) ≤ 1
            rw [div_le_one (Nat.cast_pos.mpr (by norm_num))]
            exact_mod_cast hb3
      · -- winner: format1
        have hpm : pymax (lstr "format1", fmtScore 0 t)
            [(lstr "format2", fmtScore 1 t), (lstr "format3", fmtScore 2 t)] =
            (lstr "format1", fmtScore 0 t) := by
          simp [pymax, hc2, hc3]
        rw [hpm, show totalWeightOf (lstr "format1") = 33 from by decide,
          if_pos (by norm_num : (33 : Nat) > 0)] at hid0
        have hid1 : identify_po_format t =
            (lstr "format1", (fmtScore 0 t : ℚ) / ((33 : Nat) : ℚ)) := hid0
        refine ⟨⟨fun hh => ?_, fun hno => absurd (hnm.mp hno) hz⟩, ?_, ?_⟩
        · have h2 := hid1.symm.trans hh
          rw [Prod.mk.injEq] at h2
          exact absurd h2.1 (by decide)
        · intro _
          refine ⟨0, by omega, ?_, ?_, ?_⟩
          · rw [show fmtName 0 = lstr "format1" from rfl,
              show fmtTotal 0 = 33 from by decide]
            exact hid1
          · intro j hj
            interval_cases j <;> omega
          · intro j hj
            omega
        · rw [hid1]
          constructor
          · show (0 : ℚ) ≤ (fmtScore 0 t : ℚ) / ((33 : Nat) : ℚ)
            positivity
          · show (fmtScore 0 t : ℚ) / ((33 : Nat) : ℚ) ≤ 1
            rw [div_le_one (Nat.cast_pos.mpr (by norm_num))]
            exact_mod_cast hb1

/-- Witness for C3 at a text matching one format2 signature
("Commodity", weight 2): the winner is format2 with score 2. -/
theorem identify_format_spec_witness :
    ∃ k, k < 3 ∧
      identify_po_format (lstr "Commodity") =
        (fmtName k, (fmtScore k (lstr "Commodity") : ℚ) / (fmtTotal k : ℚ)) ∧
      (∀ j, j < 3 → fmtScore j (lstr "Commodity") ≤ fmtScore k (lstr "Commodity")) ∧
      (∀ j, j < k → fmtScore j (lstr "Commodity") < fmtScore k (lstr "Commodity")) :=
  (identify_format_spec (lstr "Commodity")).2.1
    ⟨(lstr "format2", fmt2feats), by decide, (f2sig8, 2), by decide, by decide⟩

/-! Helper lemmas for the empty-input claim. -/

lemma extract_field_none (t : Str) (pats : List Regex)
    (h : ∀ p ∈ pats, reSearch imFl p t = none) :
    extract_field_by_regex t pats = [] := by
  induction pats with
  | nil => rfl
  | cons p rest ih =>
      rw [extract_field_by_regex, h p (List.mem_cons_self p rest)]
      exact ih (fun q hq => h q (List.mem_cons_of_mem p hq))

lemma reFindall_nil (fl : RFlags) (r : Regex) (s : Str)
    (h : reSearch fl r s = none) : reFindall fl r s = [] := by
  simp only [reFindall, reFindallAux, h]

/-- C8: on any text where no signature pattern and no generic extraction
pattern matches (in particular the empty string, see the witness), the
pipeline does not fail: the identifier returns ("unknown", 0), the
generic extractor is dispatched, and the final record has every string
field empty and exactly the placeholder product. -/
theorem pipeline_empty_input (t : Str)
    (hsig : ∀ fw ∈ format_features, ∀ pw ∈ fw.2, reHas icFl pw.1 t = false)
    (hcust : ∀ p ∈ gCustPats, reSearch imFl p t = none)
    (hpo : ∀ p ∈ gPoPats, reSearch imFl p t = none)
    (hname : ∀ p ∈ gNamePats, reSearch imFl p t = none)
    (hqty : ∀ p ∈ gQtyPats, reSearch imFl p t = none)
    (hup : ∀ p ∈ gUpPats, reSearch imFl p t = none)
    (hamt : ∀ p ∈ gAmtPats, reSearch imFl p t = none)
    (htot : ∀ p ∈ gTotPats, reSearch imFl p t = none)
    (hpay : ∀ p ∈ gPayPats, reSearch imFl p t = none)
    (hterms : ∀ p ∈ gTermsPats, reSearch imFl p t = none)
    (hdest : ∀ p ∈ gDestPats, reSearch imFl p t = none)
    (hcur : reSearch noFl curRe t = none)
    (hrow : reSearch noFl gRowRe t = none)
    (hsec : reSearch daFl gSecRe t = none) :
    identify_po_format t = (lstr "unknown", 0) ∧
    extract_po_data t = validate_and_clean_result (extract_generic_data t) ∧
    extract_po_data t = { emptyOrder with products := [placeholderItem] } := by
  have h1 : fmtScore 0 t = 0 := (scoreOf_zero_iff t fmt1feats (by decide)).mpr
    (fun pw hpw => hsig (lstr "format1", fmt1feats) (by decide) pw hpw)
  have h2 : fmtScore 1 t = 0 := (scoreOf_zero_iff t fmt2feats (by decide)).mpr
    (fun pw hpw => hsig (lstr "format2", fmt2feats) (by decide) pw hpw)
  have h3 : fmtScore 2 t = 0 := (scoreOf_zero_iff t fmt3feats (by decide)).mpr
    (fun pw hpw => hsig (lstr "format3", fmt3feats) (by decide) pw hpw)
  have hid : identify_po_format t = (lstr "unknown", 0) := by
    unfold identify_po_format
    rw [show format_features.map (fun fw => (fw.1, scoreOf fw.2 t)) =
      [(lstr "format1", fmtScore 0 t), (lstr "format2", fmtScore 1 t),
       (lstr "format3", fmtScore 2 t)] from rfl]
    rw [if_pos (by simp [h1, h2, h3])]
  have hdisp : extract_po_data t = validate_and_clean_result (extract_generic_data t) := by
    simp only [extract_po_data, hid]
    rw [if_neg (fun hh => absurd hh.1 (by decide)),
      if_neg (fun hh => absurd hh.1 (by decide)),
      if_neg (fun hh => absurd hh.1 (by decide))]
  have hcur0 : currencyOf t = [] := by
    unfold currencyOf
    rw [hcur]
  have hge : extract_generic_data t = emptyOrder := by
    unfold extract_generic_data
    rw [reFindall_nil _ _ _ hrow, reFindall_nil _ _ _ hsec,
      extract_field_none t gCustPats hcust, extract_field_none t gPoPats hpo,
      extract_field_none t gNamePats hname, extract_field_none t gQtyPats hqty,
      extract_field_none t gUpPats hup, extract_field_none t gAmtPats hamt,
      extract_field_none t gTotPats htot, extract_field_none t gPayPats hpay,
      extract_field_none t gTermsPats hterms, extract_field_none t gDestPats hdest, hcur0]
    rfl
  have hv : validate_and_clean_result emptyOrder =
      { emptyOrder with products := [placeholderItem] } := by decide
  exact ⟨hid, hdisp, by rw [hdisp, hge, hv]⟩

/-- Witness for C8 at the empty input text. -/
theorem pipeline_empty_input_witness :
    extract_po_data [] = { emptyOrder with products := [placeholderItem] } :=
  (pipeline_empty_input [] (by decide) (by decide) (by decide) (by decide) (by decide)
    (by decide) (by decide) (by decide) (by decide) (by decide) (by decide) (by decide)
    (by decide) (by decide)).2.2
